import Mathlib

/-!
Verification of the schema differ and migration-SQL generator
(`src/server/src/services/schema.service.ts` and the metadata compiler /
schema decorators).  The TypeScript source is shallowly embedded: JS objects
become structures (missing optional properties are `none`), JS string enums
become inductives with an explicit SQL rendering, and JS `Object.fromEntries`
maps keyed by name become association-list lookups with last-entry-wins
semantics plus first-occurrence key ordering, matching the JS object model.
-/

namespace SchemaEngine

/-- `DatabaseActionType` from `src/enum` (string enum whose values are the SQL
action keywords, as exercised by the service tests). -/
inductive DatabaseActionType where
  | NO_ACTION
  | CASCADE
  | RESTRICT
  | SET_NULL
  | SET_DEFAULT
deriving DecidableEq, Repr

/-- The SQL string value carried by each `DatabaseActionType` member. -/
def DatabaseActionType.toSql : DatabaseActionType → String
  | .NO_ACTION => "NO ACTION"
  | .CASCADE => "CASCADE"
  | .RESTRICT => "RESTRICT"
  | .SET_NULL => "SET NULL"
  | .SET_DEFAULT => "SET DEFAULT"

/-- `DatabaseConstraintType` from `src/enum`, in the declaration order used by
`Object.values` inside `diffConstraints`. -/
inductive DatabaseConstraintType where
  | PRIMARY_KEY
  | FOREIGN_KEY
  | UNIQUE
  | CHECK
deriving DecidableEq, Repr

/-- `DatabaseColumn` from `src/types`.  `type` is the `DatabaseColumnType`
string union.  `primary`, `default`, `numericPrecision`, `numericScale` and
`values` are optional properties; `none` models an absent (undefined)
property. -/
structure DatabaseColumn where
  name : String
  tableName : String
  type : String
  nullable : Bool
  isArray : Bool
  primary : Option Bool := none
  default : Option String := none
  numericPrecision : Option Nat := none
  numericScale : Option Nat := none
  values : Option (List String) := none
deriving DecidableEq, Repr

/-- `DatabaseConstraint` from `src/types`: the tagged union of PK/FK/UQ/CHECK
records flattened into one structure, `ctype` being the tag.  Fields that a
variant does not carry are `none`, exactly as the corresponding JS property is
undefined at runtime. -/
structure DatabaseConstraint where
  ctype : DatabaseConstraintType
  name : String
  tableName : String
  columnNames : Option (List String) := none
  referenceTableName : Option String := none
  referenceColumnNames : Option (List String) := none
  onUpdate : Option DatabaseActionType := none
  onDelete : Option DatabaseActionType := none
  expression : Option String := none
deriving DecidableEq, Repr

/-- `DatabaseIndex` from `src/types`.  `whereClause` embeds the source field
`where` (a Lean keyword). -/
structure DatabaseIndex where
  name : String
  tableName : String
  unique : Bool := false
  columnNames : Option (List String) := none
  expression : Option String := none
  usingMethod : Option String := none
  whereClause : Option String := none
deriving DecidableEq, Repr

/-- `DatabaseTable` from `src/types`. -/
structure DatabaseTable where
  name : String
  columns : List DatabaseColumn
  indexes : List DatabaseIndex
  constraints : List DatabaseConstraint
deriving DecidableEq, Repr

/-- `DatabaseSchema` from `src/types`. -/
structure DatabaseSchema where
  name : String
  tables : List DatabaseTable
deriving DecidableEq, Repr

/-- The `SchemaDiff` union of `schema.service.ts` (nine change tags). -/
inductive SchemaDiff where
  | tableCreate (tableName : String) (columns : List DatabaseColumn)
  | tableDelete (tableName : String)
  | columnCreate (column : DatabaseColumn)
  | columnUpdate (source target : DatabaseColumn)
  | columnDelete (tableName columnName : String)
  | constraintCreate (constraint : DatabaseConstraint)
  | constraintDelete (tableName constraintName : String)
  | indexCreate (index : DatabaseIndex)
  | indexDelete (indexName : String)
deriving DecidableEq, Repr

/-! ## JS object-as-map semantics

`Object.fromEntries(list)` followed by property lookup: the last entry with a
given key wins.  `Object.keys` enumerates keys in first-insertion order, and
`new Set([...keysA, ...keysB])` deduplicates the concatenation keeping first
occurrences. -/

/-- Property lookup on `Object.fromEntries entries`: last entry wins. -/
def jsLookup (entries : List (String × α)) (key : String) : Option α :=
  match entries with
  | [] => none
  | (k, v) :: rest =>
    match jsLookup rest key with
    | some r => some r
    | none => if k = key then some v else none

/-- First-occurrence deduplication of a key list, modelling
`new Set([...Object.keys(sourceMap), ...Object.keys(targetMap)])`. -/
def dedupKeys : List String → List String
  | [] => []
  | k :: ks => k :: (dedupKeys ks).filter (· ≠ k)

/-- Modelled from the spec: `setIsEqual` from `src/utils/set` (only its import
appears under `src/`).  Per §4.3 the column-name lists are compared *as sets*;
two lists are set-equal when each is contained in the other. -/
def setIsEqual (a b : List String) : Bool :=
  a.all (b.contains ·) && b.all (a.contains ·)

/-- `haveEqualColumns` (schema.service.ts:68–70): compare optional column-name
lists as sets, with `undefined` treated as the empty list. -/
def haveEqualColumns (sourceColumns targetColumns : Option (List String)) : Bool :=
  setIsEqual (sourceColumns.getD []) (targetColumns.getD [])

/-! ## Diff engine (`schema.service.ts` 259–514) -/

/-- `dropAndRecreateColumn` (495–500). -/
def dropAndRecreateColumn (source target : DatabaseColumn) : List SchemaDiff :=
  [ .columnDelete target.tableName target.name,
    .columnCreate source ]

/-- `dropAndRecreateConstraint` (502–507). -/
def dropAndRecreateConstraint (source target : DatabaseConstraint) : List SchemaDiff :=
  [ .constraintDelete target.tableName target.name,
    .constraintCreate source ]

/-- `dropAndRecreateIndex` (509–514). -/
def dropAndRecreateIndex (source target : DatabaseIndex) : List SchemaDiff :=
  [ .indexDelete target.name,
    .indexCreate source ]

/-- `diffColumn` (321–358).  The two arguments are the map lookups, so either
may be absent. -/
def diffColumn : Option DatabaseColumn → Option DatabaseColumn → List SchemaDiff
  | some source, none => [.columnCreate source]
  | none, some target => [.columnDelete target.tableName target.name]
  | none, none => []
  | some source, some target =>
    if source.type ≠ target.type then
      dropAndRecreateColumn source target
    else if source.type ≠ target.type ∨ source.nullable ≠ target.nullable ∨
        source.primary ≠ target.primary ∨ source.default ≠ target.default ∨
        source.isArray ≠ target.isArray then
      [.columnUpdate source target]
    else
      []

/-- `diffColumns` (308–319): key both sides by column name, union the keys. -/
def diffColumns (sources targets : List DatabaseColumn) : List SchemaDiff :=
  let sourceMap := sources.map fun column => (column.name, column)
  let targetMap := targets.map fun column => (column.name, column)
  let keys := dedupKeys (sources.map (·.name) ++ targets.map (·.name))
  keys.flatMap fun key => diffColumn (jsLookup sourceMap key) (jsLookup targetMap key)

/-- `diffPrimaryKeyConstraint` (416–425). -/
def diffPrimaryKeyConstraint (source target : DatabaseConstraint) : List SchemaDiff :=
  if ¬ haveEqualColumns source.columnNames target.columnNames ∨
      source.tableName ≠ target.tableName then
    dropAndRecreateConstraint source target
  else
    []

/-- `diffForeignKeyConstraint` (427–443). -/
def diffForeignKeyConstraint (source target : DatabaseConstraint) : List SchemaDiff :=
  if ¬ haveEqualColumns source.columnNames target.columnNames ∨
      ¬ haveEqualColumns source.referenceColumnNames target.referenceColumnNames ∨
      source.tableName ≠ target.tableName ∨
      source.referenceTableName ≠ target.referenceTableName ∨
      source.onDelete ≠ target.onDelete ∨
      source.onUpdate ≠ target.onUpdate then
    dropAndRecreateConstraint source target
  else
    []

/-- `diffUniqueConstraint` (445–449). -/
def diffUniqueConstraint (source target : DatabaseConstraint) : List SchemaDiff :=
  if haveEqualColumns source.columnNames target.columnNames then
    []
  else
    dropAndRecreateConstraint source target

/-- `diffCheckConstraint` (451–453). -/
def diffCheckConstraint (source target : DatabaseConstraint) : List SchemaDiff :=
  if source.expression = target.expression then
    []
  else
    dropAndRecreateConstraint source target

/-- `diffConstraint` (380–414).  The `default` switch branch of the source is
unreachable: `ctype` is one of the four enum members, each with its own
branch. -/
def diffConstraint : Option DatabaseConstraint → Option DatabaseConstraint → List SchemaDiff
  | some source, none => [.constraintCreate source]
  | none, some target => [.constraintDelete target.tableName target.name]
  | none, none => []
  | some source, some target =>
    match source.ctype with
    | .PRIMARY_KEY => diffPrimaryKeyConstraint source target
    | .FOREIGN_KEY => diffForeignKeyConstraint source target
    | .UNIQUE => diffUniqueConstraint source target
    | .CHECK => diffCheckConstraint source target

/-- `Object.values(DatabaseConstraintType)` in declaration order. -/
def constraintTypes : List DatabaseConstraintType :=
  [.PRIMARY_KEY, .FOREIGN_KEY, .UNIQUE, .CHECK]

/-- `diffConstraints` (360–378): partition by constraint type, then key each
partition by constraint name. -/
def diffConstraints (sources targets : List DatabaseConstraint) : List SchemaDiff :=
  constraintTypes.flatMap fun ty =>
    let ss := sources.filter (fun item => item.ctype = ty)
    let ts := targets.filter (fun item => item.ctype = ty)
    let sourceMap := ss.map fun item => (item.name, item)
    let targetMap := ts.map fun item => (item.name, item)
    let keys := dedupKeys (ss.map (·.name) ++ ts.map (·.name))
    keys.flatMap fun key => diffConstraint (jsLookup sourceMap key) (jsLookup targetMap key)

/-- `diffIndex` (468–493).  `using` is (intentionally) not compared. -/
def diffIndex : Option DatabaseIndex → Option DatabaseIndex → List SchemaDiff
  | some source, none => [.indexCreate source]
  | none, some target => [.indexDelete target.name]
  | none, none => []
  | some source, some target =>
    if ¬ haveEqualColumns source.columnNames target.columnNames ∨
        source.expression ≠ target.expression ∨
        source.unique ≠ target.unique ∨
        source.whereClause ≠ target.whereClause then
      dropAndRecreateIndex source target
    else
      []

/-- `diffIndexes` (455–466): key both sides by index name. -/
def diffIndexes (sources targets : List DatabaseIndex) : List SchemaDiff :=
  let sourceMap := sources.map fun index => (index.name, index)
  let targetMap := targets.map fun index => (index.name, index)
  let keys := dedupKeys (sources.map (·.name) ++ targets.map (·.name))
  keys.flatMap fun key => diffIndex (jsLookup sourceMap key) (jsLookup targetMap key)

/-- `diffTable` (283–306). -/
def diffTable : Option DatabaseTable → Option DatabaseTable → List SchemaDiff
  | some source, none =>
    .tableCreate source.name source.columns ::
      (diffIndexes source.indexes [] ++ diffConstraints source.constraints [])
  | none, some target => [.tableDelete target.name]
  | none, none => []
  | some source, some target =>
    diffColumns source.columns target.columns ++
      diffConstraints source.constraints target.constraints ++
      diffIndexes source.indexes target.indexes

/-- `diffTables` (267–281). -/
def diffTables (sources targets : List DatabaseTable) (ignoreExtraTables : Bool) :
    List SchemaDiff :=
  let sourceMap := sources.map fun table => (table.name, table)
  let targetMap := targets.map fun table => (table.name, table)
  let keys := dedupKeys (sources.map (·.name) ++ targets.map (·.name))
  keys.flatMap fun key =>
    if ignoreExtraTables && (jsLookup sourceMap key).isNone then
      []
    else
      diffTable (jsLookup sourceMap key) (jsLookup targetMap key)

/-- `diff` (259–265).  The options object `{ignoreExtraTables?: boolean}` is
modelled by its single optional field; an omitted option is `none` and
defaults to `true` via `?? true`. -/
def diff (source target : DatabaseSchema) (ignoreExtraTables : Option Bool) :
    List SchemaDiff :=
  diffTables source.tables target.tables (ignoreExtraTables.getD true)

/-! ## DDL emitter (`schema.service.ts` 57–66 and 516–637) -/

/-- JS truthiness of an optional string: absent and empty strings are falsy. -/
def jsTruthy : Option String → Bool
  | none => false
  | some s => s ≠ ""

/-- `Array.prototype.toSorted()` with the default comparator, on a string
array: sort lexicographically.  (JS compares UTF-16 code units; Lean's
character order coincides with it on the Basic Multilingual Plane, which
covers SQL identifiers.) -/
def sortStrings (l : List String) : List String :=
  l.insertionSort (· ≤ ·)

/-- `asColumnsNames` (57–61): sort, double-quote each name, join with a comma
and space. -/
def asColumnsNames (columns : List String) : String :=
  String.intercalate ", " ((sortStrings columns).map fun column => "\"" ++ column ++ "\"")

/-- `withNull` (62). -/
def withNull (column : DatabaseColumn) : String :=
  if column.nullable then "" else " NOT NULL"

/-- `withDefault` (63); `column.default` is tested for JS truthiness, so an
empty-string default also yields no clause. -/
def withDefault (column : DatabaseColumn) : String :=
  if jsTruthy column.default then " DEFAULT " ++ column.default.getD "" else ""

/-- `withAction` (64–66): optional ON DELETE clause followed by optional
ON UPDATE clause. -/
def withAction (onDelete onUpdate : Option DatabaseActionType) : String :=
  (match onDelete with
    | some action => " ON DELETE " ++ action.toSql
    | none => "") ++
  (match onUpdate with
    | some action => " ON UPDATE " ++ action.toSql
    | none => "")

/-- `asConstraintSql` (606–637).  In the source each variant's fields are
statically non-optional; the `getD` defaults are unreachable for constraints
built by the introspector, the metadata compiler, or the diff engine. -/
def asConstraintSql (constraint : DatabaseConstraint) : List String :=
  let base := "ALTER TABLE \"" ++ constraint.tableName ++ "\" ADD CONSTRAINT \"" ++
    constraint.name ++ "\""
  match constraint.ctype with
  | .PRIMARY_KEY =>
    [base ++ " PRIMARY KEY (" ++ asColumnsNames (constraint.columnNames.getD []) ++ ");"]
  | .FOREIGN_KEY =>
    [base ++ " FOREIGN KEY (" ++ asColumnsNames (constraint.columnNames.getD []) ++
      ") REFERENCES \"" ++ constraint.referenceTableName.getD "" ++ "\" (" ++
      asColumnsNames (constraint.referenceColumnNames.getD []) ++ ")" ++
      withAction constraint.onDelete constraint.onUpdate ++ ";"]
  | .UNIQUE =>
    [base ++ " UNIQUE (" ++ asColumnsNames (constraint.columnNames.getD []) ++ ");"]
  | .CHECK =>
    [base ++ " CHECK (" ++ constraint.expression.getD "" ++ ");"]

/-- `asSql` (523–604).  The TS function returns `string | string[]` and
`diffToSql` wraps bare strings; here each branch returns the wrapped list
directly, and the fall-through after the non-emitting `column.update` case
returns `[]`. -/
def asSql : SchemaDiff → List String
  | .tableCreate tableName columns =>
    let cols := String.intercalate ", " (columns.map fun column =>
      "\"" ++ column.name ++ "\" " ++ column.type ++ withNull column ++ withDefault column)
    ["CREATE TABLE \"" ++ tableName ++ "\" (" ++ cols ++ ");"]
  | .tableDelete tableName =>
    ["DROP TABLE \"" ++ tableName ++ "\";"]
  | .columnCreate column =>
    ["ALTER TABLE \"" ++ column.tableName ++ "\" ADD \"" ++ column.name ++ "\" " ++
      column.type ++ withNull column ++ withDefault column ++ ";"]
  | .columnUpdate source target =>
    if source.nullable ≠ target.nullable then
      if source.nullable then
        ["ALTER TABLE \"" ++ source.tableName ++ "\" ALTER COLUMN \"" ++ source.name ++
          "\" DROP NOT NULL;"]
      else
        ["ALTER TABLE \"" ++ source.tableName ++ "\" ALTER COLUMN \"" ++ source.name ++
          "\" SET NOT NULL;"]
    else
      []
  | .columnDelete tableName columnName =>
    ["ALTER TABLE \"" ++ tableName ++ "\" DROP COLUMN \"" ++ columnName ++ "\";"]
  | .constraintCreate constraint => asConstraintSql constraint
  | .constraintDelete tableName constraintName =>
    ["ALTER TABLE \"" ++ tableName ++ "\" DROP CONSTRAINT \"" ++ constraintName ++ "\";"]
  | .indexCreate index =>
    let sql := "CREATE" ++ (if index.unique then " UNIQUE" else "") ++
      " INDEX \"" ++ index.name ++ "\" ON \"" ++ index.tableName ++ "\"" ++
      (match index.columnNames with
        | some columnNames => " (" ++ asColumnsNames columnNames ++ ")"
        | none => "") ++
      (if jsTruthy index.usingMethod then " USING " ++ index.usingMethod.getD "" else "") ++
      (if jsTruthy index.expression then " (" ++ index.expression.getD "" ++ ")" else "") ++
      (if jsTruthy index.whereClause then " WHERE " ++ index.whereClause.getD "" else "")
    [sql]
  | .indexDelete indexName =>
    ["DROP INDEX \"" ++ indexName ++ "\";"]

/-- `diffToSql` (516–521): flat-map `asSql` over the change list. -/
def diffToSql (items : List SchemaDiff) : List String :=
  items.flatMap asSql

/-! ## SHA-1 (`createHash('sha1').update(value).digest('hex')`)

The metadata compiler's constraint-name synthesis hashes with Node's SHA-1.
This is the standard FIPS 180-1 algorithm over the UTF-8 bytes of the input,
embedded with `Nat` arithmetic reduced modulo `2 ^ 32`. -/

/-- Rotate a 32-bit word (a `Nat` below `2 ^ 32`) left by `n` bits. -/
def rotl32 (n x : Nat) : Nat :=
  ((x <<< n) ||| (x >>> (32 - n))) % 2 ^ 32

/-- Split a byte list (whose length is a multiple of 64) into its 64-byte
chunks. -/
def chunks64 (l : List Nat) : List (List Nat) :=
  (List.range (l.length / 64)).map fun i => (l.drop (64 * i)).take 64

/-- Big-endian 8-byte encoding of a (bit-length) value. -/
def beBytes8 (n : Nat) : List Nat :=
  (List.range 8).map fun i => (n >>> (8 * (7 - i))) % 256

/-- SHA-1 message padding: `0x80`, zeros to 56 mod 64, then the 64-bit
big-endian bit length. -/
def sha1pad (msg : List Nat) : List Nat :=
  let padLen := (64 - (msg.length + 9) % 64) % 64
  msg ++ [0x80] ++ List.replicate padLen 0 ++ beBytes8 (8 * msg.length)

/-- Combine four bytes into one big-endian 32-bit word. -/
def beWord : List Nat → Nat
  | [b0, b1, b2, b3] => ((b0 <<< 24) + (b1 <<< 16) + (b2 <<< 8) + b3) % 2 ^ 32
  | _ => 0

/-- The 16 big-endian words of one 64-byte chunk. -/
def chunkWords (chunk : List Nat) : List Nat :=
  (List.range 16).map fun i => beWord ((chunk.drop (4 * i)).take 4)

/-- Message-schedule extension: words 16–79, each the 1-bit left rotation of
the xor of the words 3, 8, 14 and 16 positions back. -/
def extendWords (w : List Nat) : List Nat :=
  (List.range 64).foldl
    (fun acc _ =>
      let n := acc.length
      acc ++ [rotl32 1 (((acc.getD (n - 3) 0) ^^^ (acc.getD (n - 8) 0)) ^^^
        ((acc.getD (n - 14) 0) ^^^ (acc.getD (n - 16) 0)))])
    w

/-- One SHA-1 round: `t` is the round index, `wt` the schedule word. -/
def sha1Round (st : Nat × Nat × Nat × Nat × Nat) (t wt : Nat) :
    Nat × Nat × Nat × Nat × Nat :=
  let (a, b, c, d, e) := st
  let f :=
    if t < 20 then (b &&& c) ||| ((b ^^^ 0xffffffff) &&& d)
    else if t < 40 then (b ^^^ c) ^^^ d
    else if t < 60 then ((b &&& c) ||| (b &&& d)) ||| (c &&& d)
    else (b ^^^ c) ^^^ d
  let k :=
    if t < 20 then 0x5a827999
    else if t < 40 then 0x6ed9eba1
    else if t < 60 then 0x8f1bbcdc
    else 0xca62c1d6
  let temp := (rotl32 5 a + f + e + k + wt) % 2 ^ 32
  (temp, a, rotl32 30 b, c, d)

/-- Process one 64-byte chunk against the running hash state. -/
def sha1Chunk (h : Nat × Nat × Nat × Nat × Nat) (chunk : List Nat) :
    Nat × Nat × Nat × Nat × Nat :=
  let w := extendWords (chunkWords chunk)
  let (a, b, c, d, e) :=
    (List.range 80).foldl (fun st t => sha1Round st t (w.getD t 0)) h
  ((h.1 + a) % 2 ^ 32, (h.2.1 + b) % 2 ^ 32, (h.2.2.1 + c) % 2 ^ 32,
    (h.2.2.2.1 + d) % 2 ^ 32, (h.2.2.2.2 + e) % 2 ^ 32)

/-- The final SHA-1 state over a byte message. -/
def sha1State (msg : List Nat) : Nat × Nat × Nat × Nat × Nat :=
  (chunks64 (sha1pad msg)).foldl sha1Chunk
    (0x67452301, 0xefcdab89, 0x98badcfe, 0x10325476, 0xc3d2e1f0)

/-- The five 32-bit words of the SHA-1 digest of a byte message. -/
def sha1Digest (msg : List Nat) : List Nat :=
  [(sha1State msg).1, (sha1State msg).2.1, (sha1State msg).2.2.1,
    (sha1State msg).2.2.2.1, (sha1State msg).2.2.2.2]

/-- Lowercase hex digit for a nibble. -/
def hexDigit (n : Nat) : Char :=
  "0123456789abcdef".toList.getD n '0'

/-- The eight hex characters of a 32-bit word, most significant first. -/
def hexWord (w : Nat) : List Char :=
  (List.range 8).map fun i => hexDigit ((w >>> (28 - 4 * i)) &&& 15)

/-- The UTF-8 bytes of a string, as `Nat`s (the byte contents of
`String.toUTF8`). -/
def strBytes (s : String) : List Nat :=
  (s.data.flatMap String.utf8EncodeChar).map (·.toNat)

/-- `sha1` (schema decorators, "match TypeORM"): lowercase hex digest of the
SHA-1 of the UTF-8 encoded string. -/
def sha1 (value : String) : String :=
  String.mk ((sha1Digest (strBytes value)).flatMap hexWord)

/-! ## Constraint-name synthesis (schema decorators / metadata compiler) -/

/-- `String.prototype.slice(0, n)`: the first `n` characters. -/
def strTake (s : String) (n : Nat) : String :=
  String.mk (s.data.take n)

/-- `asKey`: prefix the hash of `tableName_sorted-columns-joined-by-_` and
keep the first 30 characters. -/
def asKey (pfx tableName : String) (columnNames : List String) : String :=
  strTake (pfx ++ sha1 (tableName ++ "_" ++ String.intercalate "_" (sortStrings columnNames))) 30

/-- `asPrimaryKeyConstraintName`. -/
def asPrimaryKeyConstraintName (tableName : String) (columnNames : List String) : String :=
  asKey "PK_" tableName columnNames

/-- `asUniqueConstraintName`. -/
def asUniqueConstraintName (tableName : String) (columnNames : List String) : String :=
  asKey "UQ_" tableName columnNames

/-- `asForeignKeyConstraintName`. -/
def asForeignKeyConstraintName (tableName : String) (columnNames : List String) : String :=
  asKey "FK_" tableName columnNames

/-! ## Concrete sample data (used by witness theorems) -/

/-- A `text` column named `c` of table `t`. -/
def sampleTextColumn : DatabaseColumn :=
  { name := "c", tableName := "t", type := "text", nullable := true, isArray := false }

/-- A `uuid` column named `c` of table `t`. -/
def sampleUuidColumn : DatabaseColumn :=
  { name := "c", tableName := "t", type := "uuid", nullable := false, isArray := false }

/-- The `uuid` column with an explicit `primary: false` property, as the
metadata compiler produces it. -/
def sampleUuidPrimaryFalseColumn : DatabaseColumn :=
  { sampleUuidColumn with primary := some false }

/-- A string carries a terminating semicolon iff its last character is `;`. -/
def endsWithSemicolon (s : String) : Bool :=
  s.data.getLast? == some ';'

/-- The foreign key of the service tests: `FK_1` on `Table1(Column1)`
referencing `Table2(Column2)` with `ON UPDATE CASCADE`, `ON DELETE NO
ACTION`. -/
def sampleFkConstraint : DatabaseConstraint :=
  { ctype := .FOREIGN_KEY, name := "FK_1", tableName := "Table1",
    columnNames := some ["Column1"], referenceTableName := some "Table2",
    referenceColumnNames := some ["Column2"], onUpdate := some .CASCADE,
    onDelete := some .NO_ACTION }

/-- A partial unique index in the style of the asset-entity declarations. -/
def sampleWhereIndex : DatabaseIndex :=
  { name := "IDX_1", tableName := "Table1", unique := true,
    columnNames := some ["Column1"], whereClause := some "(\"libraryId\" IS NULL)" }

/-- A primary-key constraint on columns `a`, `b` of table `t`. -/
def samplePkConstraint : DatabaseConstraint :=
  { ctype := .PRIMARY_KEY, name := "PK_1", tableName := "t",
    columnNames := some ["a", "b"] }

/-- An index on columns `a`, `b` of table `t`. -/
def sampleIndex : DatabaseIndex :=
  { name := "IDX_1", tableName := "t", columnNames := some ["a", "b"] }

/-! ## Helper lemmas -/

theorem flatMap_eq_nil_of_forall {α β : Type} (l : List α) (g : α → List β)
    (h : ∀ x ∈ l, g x = []) : l.flatMap g = [] := by
  induction l with
  | nil => rfl
  | cons a as ih =>
    simp only [List.flatMap_cons, h a (by simp), List.nil_append]
    exact ih fun x hx => h x (by simp [hx])

theorem setIsEqual_of_perm {a b : List String} (h : a.Perm b) : setIsEqual a b = true := by
  simp only [setIsEqual, Bool.and_eq_true, List.all_eq_true, List.contains,
    List.elem_eq_mem, decide_eq_true_eq]
  exact ⟨fun x hx => h.mem_iff.mp hx, fun x hx => h.mem_iff.mpr hx⟩

theorem setIsEqual_self (a : List String) : setIsEqual a a = true :=
  setIsEqual_of_perm (List.Perm.refl a)

theorem haveEqualColumns_self (o : Option (List String)) : haveEqualColumns o o = true :=
  setIsEqual_self _

theorem diffColumn_self (o : Option DatabaseColumn) : diffColumn o o = [] := by
  cases o with
  | none => rfl
  | some c => simp [diffColumn]

theorem diffConstraint_self (o : Option DatabaseConstraint) : diffConstraint o o = [] := by
  cases o with
  | none => rfl
  | some c =>
    cases h : c.ctype <;>
      simp [diffConstraint, h, diffPrimaryKeyConstraint, diffForeignKeyConstraint,
        diffUniqueConstraint, diffCheckConstraint, haveEqualColumns_self]

theorem diffIndex_self (o : Option DatabaseIndex) : diffIndex o o = [] := by
  cases o with
  | none => rfl
  | some i => simp [diffIndex, haveEqualColumns_self]

theorem diffColumns_self (l : List DatabaseColumn) : diffColumns l l = [] := by
  unfold diffColumns
  exact flatMap_eq_nil_of_forall _ _ fun k _ => diffColumn_self _

theorem diffConstraints_self (l : List DatabaseConstraint) : diffConstraints l l = [] := by
  unfold diffConstraints
  refine flatMap_eq_nil_of_forall _ _ fun ty _ => ?_
  exact flatMap_eq_nil_of_forall _ _ fun k _ => diffConstraint_self _

theorem diffIndexes_self (l : List DatabaseIndex) : diffIndexes l l = [] := by
  unfold diffIndexes
  exact flatMap_eq_nil_of_forall _ _ fun k _ => diffIndex_self _

theorem diffTable_self (o : Option DatabaseTable) : diffTable o o = [] := by
  cases o with
  | none => rfl
  | some t =>
    show diffColumns t.columns t.columns ++ diffConstraints t.constraints t.constraints ++
      diffIndexes t.indexes t.indexes = []
    rw [diffColumns_self, diffConstraints_self, diffIndexes_self]
    rfl

theorem diffTables_self (l : List DatabaseTable) (ignoreExtraTables : Bool) :
    diffTables l l ignoreExtraTables = [] := by
  unfold diffTables
  refine flatMap_eq_nil_of_forall _ _ fun k _ => ?_
  split
  · rfl
  · exact diffTable_self _

theorem string_data_append (s t : String) : (s ++ t).data = s.data ++ t.data := by
  cases s
  cases t
  rfl

theorem endsWithSemicolon_append (s t : String) :
    endsWithSemicolon (s ++ t) =
      if t.data.isEmpty then endsWithSemicolon s else endsWithSemicolon t := by
  unfold endsWithSemicolon
  rw [string_data_append, List.getLast?_append]
  cases ht : t.data with
  | nil => simp
  | cons c cs =>
    rcases hgl : (c :: cs).getLast? with _ | y
    · simp at hgl
    · simp [hgl, Option.or]

theorem ews_append_right (s t : String) (h : t.data ≠ []) :
    endsWithSemicolon (s ++ t) = endsWithSemicolon t := by
  rw [endsWithSemicolon_append]
  simp [h]

theorem ews_append_empty (s : String) : endsWithSemicolon (s ++ "") = endsWithSemicolon s := by
  rw [endsWithSemicolon_append]
  rfl

theorem data_ne_nil_of_ne_empty {s : String} (h : s ≠ "") : s.data ≠ [] := by
  intro hd
  exact h (by cases s; simp_all)

theorem quote_foreign_key_append (r : String) :
    "\"" ++ (" FOREIGN KEY (" ++ r) = "\" FOREIGN KEY (" ++ r := by
  rw [← String.append_assoc]
  rw [show ("\"" : String) ++ " FOREIGN KEY (" = "\" FOREIGN KEY (" from rfl]

theorem append_data_ne_nil (a b : String) (h : a.data ≠ []) : (a ++ b).data ≠ [] := by
  rw [string_data_append]
  intro he
  exact h (List.append_eq_nil.mp he).1

theorem append_data_ne_nil_right (a b : String) (h : b.data ≠ []) : (a ++ b).data ≠ [] := by
  rw [string_data_append]
  intro he
  exact h (List.append_eq_nil.mp he).2

theorem ews_append_suffix_var (x pre : String) (o : Option String)
    (hend : ∀ v, o = some v → endsWithSemicolon v = false)
    (hpre : pre.data ≠ [])
    (hx : endsWithSemicolon x = false) :
    endsWithSemicolon (x ++ (if jsTruthy o = true then pre ++ o.getD "" else "")) = false := by
  split
  · next h =>
    rcases ho : o with _ | v
    · subst ho
      simp [jsTruthy] at h
    · subst ho
      have hv : v ≠ "" := by simpa [jsTruthy] using h
      rw [ews_append_right _ _ (append_data_ne_nil _ _ hpre)]
      simp only [Option.getD_some]
      rw [ews_append_right _ _ (data_ne_nil_of_ne_empty hv)]
      exact hend v rfl
  · rw [ews_append_empty]
    exact hx

theorem ews_append_wrapped (x pre post : String) (o : Option String)
    (hpost : post.data ≠ [])
    (hep : endsWithSemicolon post = false)
    (hx : endsWithSemicolon x = false) :
    endsWithSemicolon (x ++ (if jsTruthy o = true then pre ++ o.getD "" ++ post else "")) =
      false := by
  split
  · rw [ews_append_right _ _ (append_data_ne_nil_right _ _ hpost),
      ews_append_right _ _ hpost]
    exact hep
  · rw [ews_append_empty]
    exact hx

theorem ews_append_match_cols (x : String) (o : Option (List String))
    (hx : endsWithSemicolon x = false) :
    endsWithSemicolon (x ++ (match o with
      | some columnNames => " (" ++ asColumnsNames columnNames ++ ")"
      | none => "")) = false := by
  rcases o with _ | columnNames
  · rw [ews_append_empty]
    exact hx
  · rw [ews_append_right _ _ (append_data_ne_nil_right _ _ (by decide)),
      ews_append_right _ ")" (by decide)]
    decide

theorem sortStrings_sorted (l : List String) : List.Sorted (· ≤ ·) (sortStrings l) :=
  List.sorted_insertionSort _ l

theorem sortStrings_perm (l : List String) : (sortStrings l).Perm l :=
  List.perm_insertionSort _ l

theorem sortStrings_eq_of_perm {l l' : List String} (h : l.Perm l') :
    sortStrings l = sortStrings l' :=
  List.eq_of_perm_of_sorted ((sortStrings_perm l).trans (h.trans (sortStrings_perm l').symm))
    (sortStrings_sorted l) (sortStrings_sorted l')

theorem hexWord_length (w : Nat) : (hexWord w).length = 8 := by
  simp [hexWord]

theorem sha1_length (s : String) : (sha1 s).length = 40 := by
  show ((sha1Digest (strBytes s)).flatMap hexWord).length = 40
  simp [sha1Digest, hexWord_length]

theorem strTake_length (s : String) (n : Nat) : (strTake s n).length = min n s.length := by
  show (s.data.take n).length = min n s.data.length
  exact List.length_take n s.data

theorem strTake_append_of_three (a b : String) (h : a.data.length = 3) :
    strTake (a ++ b) 30 = a ++ strTake b 27 := by
  apply String.ext
  show ((a ++ b).data.take 30) = (a ++ strTake b 27).data
  rw [string_data_append, string_data_append, List.take_append_eq_append_take, h]
  show a.data.take 30 ++ b.data.take 27 = a.data ++ (strTake b 27).data
  rw [List.take_of_length_le (by rw [h]; omega)]
  rfl

/-! ## Claims -/

/-- C1.  Stability under self-diff: for every schema `S`,
`diff(S, S, {ignoreExtraTables: false})` returns the empty change list. -/
theorem diff_self_eq_nil (S : DatabaseSchema) : diff S S (some false) = [] :=
  diffTables_self S.tables false

/-- C5.  `ignoreExtraTables` semantics: diffing an empty source schema against
a target schema holding exactly one table yields nothing when
`ignoreExtraTables` is `true`, exactly the `table.delete` of that table when
it is `false`, and an omitted option behaves as `true`. -/
theorem diff_ignoreExtraTables_semantics (n₁ n₂ : String) (t : DatabaseTable) :
    diff ⟨n₁, []⟩ ⟨n₂, [t]⟩ (some true) = [] ∧
    diff ⟨n₁, []⟩ ⟨n₂, [t]⟩ (some false) = [.tableDelete t.name] ∧
    ∀ source target : DatabaseSchema, diff source target none = diff source target (some true) := by
  refine ⟨?_, ?_, fun source target => rfl⟩ <;>
    simp [diff, diffTables, dedupKeys, jsLookup, diffTable]

/-- C6.  A column type change forces drop-and-recreate: when both sides have
the column but the types differ, the diff is exactly
`[column.delete target, column.create source]` — never a `column.update` —
whatever the other fields are. -/
theorem diffColumn_type_change_drop_recreate (source target : DatabaseColumn)
    (h : source.type ≠ target.type) :
    diffColumn (some source) (some target) =
      [.columnDelete target.tableName target.name, .columnCreate source] := by
  simp [diffColumn, h, dropAndRecreateColumn]

theorem diffColumn_type_change_drop_recreate_witness :
    sampleTextColumn.type ≠ sampleUuidColumn.type ∧
    diffColumn (some sampleTextColumn) (some sampleUuidColumn) =
      [.columnDelete "t" "c", .columnCreate sampleTextColumn] :=
  ⟨by decide,
    diffColumn_type_change_drop_recreate sampleTextColumn sampleUuidColumn (by decide)⟩

/-- C10.  Optional-primary mismatch: two same-name columns agreeing on type,
nullability, default and array flag, where the source carries
`primary = false` (as every metadata-compiled column does) and the target
leaves `primary` absent (as every introspected column does), still diff to a
`column.update`, because `false` and an absent property are distinct. -/
theorem diffColumn_primary_false_vs_absent (source target : DatabaseColumn)
    (htype : source.type = target.type) (hnull : source.nullable = target.nullable)
    (hdef : source.default = target.default) (harr : source.isArray = target.isArray)
    (hsp : source.primary = some false) (htp : target.primary = none) :
    diffColumn (some source) (some target) = [.columnUpdate source target] := by
  have hp : source.primary ≠ target.primary := by simp [hsp, htp]
  simp [diffColumn, htype, hnull, hdef, harr, hp]

/-- C2.  `column.update` SQL is emitted only on a nullability transition:
source nullable with target non-nullable yields exactly the `DROP NOT NULL`
statement, the converse yields exactly the `SET NOT NULL` statement, and equal
nullability (whatever the other fields) contributes no statement to
`diffToSql`. -/
theorem asSql_column_update_nullability (source target : DatabaseColumn) :
    (source.nullable = true → target.nullable = false →
      asSql (.columnUpdate source target) =
        ["ALTER TABLE \"" ++ source.tableName ++ "\" ALTER COLUMN \"" ++ source.name ++
          "\" DROP NOT NULL;"]) ∧
    (source.nullable = false → target.nullable = true →
      asSql (.columnUpdate source target) =
        ["ALTER TABLE \"" ++ source.tableName ++ "\" ALTER COLUMN \"" ++ source.name ++
          "\" SET NOT NULL;"]) ∧
    (source.nullable = target.nullable →
      asSql (.columnUpdate source target) = [] ∧
      ∀ pre post : List SchemaDiff,
        diffToSql (pre ++ .columnUpdate source target :: post) = diffToSql (pre ++ post)) := by
  refine ⟨fun hs ht => ?_, fun hs ht => ?_, fun h => ⟨?_, fun pre post => ?_⟩⟩
  · simp [asSql, hs, ht]
  · simp [asSql, hs, ht]
  · simp [asSql, h]
  · simp [diffToSql, asSql, h]

theorem asSql_column_update_nullability_witness :
    (sampleTextColumn.nullable = true ∧ sampleUuidColumn.nullable = false ∧
      asSql (.columnUpdate sampleTextColumn sampleUuidColumn) =
        ["ALTER TABLE \"t\" ALTER COLUMN \"c\" DROP NOT NULL;"]) ∧
    (sampleUuidColumn.nullable = sampleUuidPrimaryFalseColumn.nullable ∧
      asSql (.columnUpdate sampleUuidColumn sampleUuidPrimaryFalseColumn) = []) :=
  ⟨⟨rfl, rfl,
    ((asSql_column_update_nullability sampleTextColumn sampleUuidColumn).1 rfl rfl).trans
      (by decide)⟩,
    ⟨rfl,
      ((asSql_column_update_nullability sampleUuidColumn sampleUuidPrimaryFalseColumn).2.2
        rfl).1⟩⟩

/-- C8.  Foreign-key emission form: a `constraint.create` of a FOREIGN_KEY
emits exactly
`ALTER TABLE "<T>" ADD CONSTRAINT "<N>" FOREIGN KEY (<cols>) REFERENCES "<RT>"
(<refCols>)[ ON DELETE <a>][ ON UPDATE <a>];`, each action clause present only
when the action is, `ON DELETE` before `ON UPDATE`; both column lists are
rendered sorted lexicographically, double-quoted and joined by `", "`. -/
theorem asConstraintSql_foreign_key_form (c : DatabaseConstraint)
    (hty : c.ctype = .FOREIGN_KEY)
    (cols : List String) (hcols : c.columnNames = some cols)
    (rt : String) (hrt : c.referenceTableName = some rt)
    (rcols : List String) (hrcols : c.referenceColumnNames = some rcols) :
    asSql (.constraintCreate c) =
      ["ALTER TABLE \"" ++ c.tableName ++ "\" ADD CONSTRAINT \"" ++ c.name ++
        "\" FOREIGN KEY (" ++ asColumnsNames cols ++ ") REFERENCES \"" ++ rt ++
        "\" (" ++ asColumnsNames rcols ++ ")" ++
        (match c.onDelete with
          | some action => " ON DELETE " ++ action.toSql
          | none => "") ++
        (match c.onUpdate with
          | some action => " ON UPDATE " ++ action.toSql
          | none => "") ++ ";"] ∧
    ∀ l : List String,
      asColumnsNames l =
        String.intercalate ", " ((sortStrings l).map fun column => "\"" ++ column ++ "\"") ∧
      List.Sorted (· ≤ ·) (sortStrings l) ∧ (sortStrings l).Perm l := by
  refine ⟨?_, fun l => ⟨rfl, sortStrings_sorted l, sortStrings_perm l⟩⟩
  show asConstraintSql c = _
  rw [asConstraintSql, hty]
  simp only [hcols, hrt, hrcols, Option.getD_some, withAction, String.append_assoc,
    quote_foreign_key_append]

theorem asConstraintSql_foreign_key_form_witness :
    asSql (.constraintCreate sampleFkConstraint) =
      ["ALTER TABLE \"Table1\" ADD CONSTRAINT \"FK_1\" FOREIGN KEY (\"Column1\") " ++
        "REFERENCES \"Table2\" (\"Column2\") ON DELETE NO ACTION ON UPDATE CASCADE;"] :=
  ((asConstraintSql_foreign_key_form sampleFkConstraint rfl ["Column1"] rfl "Table2" rfl
    ["Column2"] rfl).1).trans (by decide)

/-- C3.  Constraint-name hashing: each synthesized PK/UQ/FK name is the
three-character prefix followed by the first 27 hex characters of
`sha1(tableName + "_" + sortedColumnNames.join("_"))`, is exactly 30
characters long, and is invariant under reordering of the column-name list
(the list is sorted before hashing); the three named wrappers fix the
`PK_`/`UQ_`/`FK_` prefixes. -/
theorem constraint_name_hashing (pfx tableName : String) (columnNames : List String)
    (hpfx : pfx = "PK_" ∨ pfx = "UQ_" ∨ pfx = "FK_") :
    asKey pfx tableName columnNames =
      pfx ++ strTake (sha1 (tableName ++ "_" ++
        String.intercalate "_" (sortStrings columnNames))) 27 ∧
    (asKey pfx tableName columnNames).length = 30 ∧
    (∀ columnNames' : List String, columnNames.Perm columnNames' →
      asKey pfx tableName columnNames = asKey pfx tableName columnNames') ∧
    asPrimaryKeyConstraintName tableName columnNames = asKey "PK_" tableName columnNames ∧
    asUniqueConstraintName tableName columnNames = asKey "UQ_" tableName columnNames ∧
    asForeignKeyConstraintName tableName columnNames = asKey "FK_" tableName columnNames := by
  have hlen : pfx.data.length = 3 := by
    rcases hpfx with h | h | h <;> subst h <;> decide
  refine ⟨?_, ?_, fun columnNames' hperm => ?_, rfl, rfl, rfl⟩
  · unfold asKey
    exact strTake_append_of_three pfx _ hlen
  · unfold asKey
    rw [strTake_length, String.length_append, sha1_length]
    show min 30 (pfx.data.length + 40) = 30
    rw [hlen]
    decide
  · unfold asKey
    rw [sortStrings_eq_of_perm hperm]

theorem constraint_name_hashing_witness :
    ("PK_" : String) = "PK_" ∧
    (asKey "PK_" "users" ["assetId", "userId"]).length = 30 ∧
    ["assetId", "userId"].Perm ["userId", "assetId"] ∧
    asKey "PK_" "users" ["assetId", "userId"] = asKey "PK_" "users" ["userId", "assetId"] ∧
    asPrimaryKeyConstraintName "users" ["id"] = "PK_a3ffb1c0c8416b9fc6f907b7433" :=
  ⟨rfl,
    (constraint_name_hashing "PK_" "users" ["assetId", "userId"] (Or.inl rfl)).2.1,
    by decide,
    (constraint_name_hashing "PK_" "users" ["assetId", "userId"] (Or.inl rfl)).2.2.1
      ["userId", "assetId"] (by decide),
    by set_option maxRecDepth 100000 in decide⟩

/-- C9.  Semicolon asymmetry: every emitted statement ends in `;` — table
create/delete, column create, every emitted column update, column delete,
constraint create (all four kinds) and delete, index delete — except the
`index.create` statement, which never does (provided the raw `USING` method
and `WHERE` predicate taken from the index definition do not themselves end in
`;`; the other fragments are followed by quoting or parentheses). -/
theorem semicolon_asymmetry :
    (∀ tableName columns, ∀ s ∈ asSql (.tableCreate tableName columns),
      endsWithSemicolon s = true) ∧
    (∀ tableName, ∀ s ∈ asSql (.tableDelete tableName), endsWithSemicolon s = true) ∧
    (∀ column, ∀ s ∈ asSql (.columnCreate column), endsWithSemicolon s = true) ∧
    (∀ source target : DatabaseColumn, ∀ s ∈ asSql (.columnUpdate source target),
      endsWithSemicolon s = true) ∧
    (∀ tableName columnName, ∀ s ∈ asSql (.columnDelete tableName columnName),
      endsWithSemicolon s = true) ∧
    (∀ c : DatabaseConstraint, ∀ s ∈ asSql (.constraintCreate c),
      endsWithSemicolon s = true) ∧
    (∀ tableName constraintName, ∀ s ∈ asSql (.constraintDelete tableName constraintName),
      endsWithSemicolon s = true) ∧
    (∀ indexName, ∀ s ∈ asSql (.indexDelete indexName), endsWithSemicolon s = true) ∧
    (∀ index : DatabaseIndex,
      (∀ u, index.usingMethod = some u → endsWithSemicolon u = false) →
      (∀ w, index.whereClause = some w → endsWithSemicolon w = false) →
      ∀ s ∈ asSql (.indexCreate index), endsWithSemicolon s = false) := by
  refine ⟨fun tableName columns s hs => ?_, fun tableName s hs => ?_,
    fun column s hs => ?_, fun source target s hs => ?_, fun tableName columnName s hs => ?_,
    fun c s hs => ?_, fun tableName constraintName s hs => ?_, fun indexName s hs => ?_,
    fun index hU hW s hs => ?_⟩
  · simp only [asSql, List.mem_singleton] at hs
    subst hs
    rw [ews_append_right _ ");" (by decide)]
    decide
  · simp only [asSql, List.mem_singleton] at hs
    subst hs
    rw [ews_append_right _ "\";" (by decide)]
    decide
  · simp only [asSql, List.mem_singleton] at hs
    subst hs
    rw [ews_append_right _ ";" (by decide)]
    decide
  · simp only [asSql] at hs
    split at hs
    · split at hs <;> simp only [List.mem_singleton] at hs <;> subst hs <;>
        rw [ews_append_right _ _ (by decide)] <;> decide
    · cases hs
  · simp only [asSql, List.mem_singleton] at hs
    subst hs
    rw [ews_append_right _ "\";" (by decide)]
    decide
  · rcases hty : c.ctype <;>
      simp only [asSql, asConstraintSql, hty, List.mem_singleton] at hs <;> subst hs <;>
      (rw [ews_append_right _ _ (by decide)]; decide)
  · simp only [asSql, List.mem_singleton] at hs
    subst hs
    rw [ews_append_right _ "\";" (by decide)]
    decide
  · simp only [asSql, List.mem_singleton] at hs
    subst hs
    rw [ews_append_right _ "\";" (by decide)]
    decide
  · simp only [asSql, List.mem_singleton] at hs
    subst hs
    apply ews_append_suffix_var _ " WHERE " _ hW (by decide)
    apply ews_append_wrapped _ " (" ")" _ (by decide) (by decide)
    apply ews_append_suffix_var _ " USING " _ hU (by decide)
    apply ews_append_match_cols
    rw [ews_append_right _ "\"" (by decide)]
    decide

theorem semicolon_asymmetry_witness :
    endsWithSemicolon "DROP TABLE \"Table1\";" = true ∧
    endsWithSemicolon
      ("CREATE UNIQUE INDEX \"IDX_1\" ON \"Table1\" (\"Column1\")" ++
        " WHERE (\"libraryId\" IS NULL)") = false :=
  ⟨semicolon_asymmetry.2.1 "Table1" _ (by decide),
    semicolon_asymmetry.2.2.2.2.2.2.2.2 sampleWhereIndex
      (fun u h => nomatch h)
      (fun w h => by cases h; decide)
      _ (by decide)⟩

/-- C4.  Set-equality for column lists: a PK, UNIQUE or FOREIGN_KEY
constraint, or an index, compared against an otherwise identical copy whose
`columnNames` (and, for foreign keys, `referenceColumnNames`) are permuted,
produces no change. -/
theorem diff_ignores_column_order :
    (∀ (c : DatabaseConstraint) (l₁ l₂ : List String), c.ctype = .PRIMARY_KEY →
      l₁.Perm l₂ →
      diffConstraint (some { c with columnNames := some l₁ })
        (some { c with columnNames := some l₂ }) = []) ∧
    (∀ (c : DatabaseConstraint) (l₁ l₂ : List String), c.ctype = .UNIQUE →
      l₁.Perm l₂ →
      diffConstraint (some { c with columnNames := some l₁ })
        (some { c with columnNames := some l₂ }) = []) ∧
    (∀ (c : DatabaseConstraint) (l₁ l₂ r₁ r₂ : List String), c.ctype = .FOREIGN_KEY →
      l₁.Perm l₂ → r₁.Perm r₂ →
      diffConstraint
        (some { c with columnNames := some l₁, referenceColumnNames := some r₁ })
        (some { c with columnNames := some l₂, referenceColumnNames := some r₂ }) = []) ∧
    (∀ (i : DatabaseIndex) (l₁ l₂ : List String), l₁.Perm l₂ →
      diffIndex (some { i with columnNames := some l₁ })
        (some { i with columnNames := some l₂ }) = []) := by
  refine ⟨fun c l₁ l₂ hty hp => ?_, fun c l₁ l₂ hty hp => ?_,
    fun c l₁ l₂ r₁ r₂ hty hp hrp => ?_, fun i l₁ l₂ hp => ?_⟩
  · simp [diffConstraint, hty, diffPrimaryKeyConstraint, haveEqualColumns,
      setIsEqual_of_perm hp]
  · simp [diffConstraint, hty, diffUniqueConstraint, haveEqualColumns,
      setIsEqual_of_perm hp]
  · simp [diffConstraint, hty, diffForeignKeyConstraint, haveEqualColumns,
      setIsEqual_of_perm hp, setIsEqual_of_perm hrp]
  · simp [diffIndex, haveEqualColumns, setIsEqual_of_perm hp]

theorem diff_ignores_column_order_witness :
    (["a", "b"].Perm ["b", "a"] ∧
      diffConstraint (some samplePkConstraint)
        (some { samplePkConstraint with columnNames := some ["b", "a"] }) = []) ∧
    diffIndex (some sampleIndex)
      (some { sampleIndex with columnNames := some ["b", "a"] }) = [] :=
  ⟨⟨by decide,
    diff_ignores_column_order.1 { samplePkConstraint with columnNames := some ["a", "b"] }
      ["a", "b"] ["b", "a"] rfl (by decide)⟩,
    diff_ignores_column_order.2.2.2 { sampleIndex with columnNames := some ["a", "b"] }
      ["a", "b"] ["b", "a"] (by decide)⟩

/-- C7.  Drop-then-create ordering: each drop-and-recreate helper returns the
`delete` immediately before the matching `create`, and whenever a column,
constraint or index diff yields a two-element change list, those two elements
are the `delete` of the target followed by the `create` of the source (the
flat-map structure of the diff keeps each pair adjacent and, in particular,
ordered in the final change list). -/
theorem drop_precedes_create :
    (∀ source target : DatabaseColumn, dropAndRecreateColumn source target =
      [.columnDelete target.tableName target.name, .columnCreate source]) ∧
    (∀ source target : DatabaseConstraint, dropAndRecreateConstraint source target =
      [.constraintDelete target.tableName target.name, .constraintCreate source]) ∧
    (∀ source target : DatabaseIndex, dropAndRecreateIndex source target =
      [.indexDelete target.name, .indexCreate source]) ∧
    (∀ (os ot : Option DatabaseColumn) (x y : SchemaDiff),
      diffColumn os ot = [x, y] → ∃ source target, os = some source ∧ ot = some target ∧
        x = .columnDelete target.tableName target.name ∧ y = .columnCreate source) ∧
    (∀ (os ot : Option DatabaseConstraint) (x y : SchemaDiff),
      diffConstraint os ot = [x, y] → ∃ source target, os = some source ∧ ot = some target ∧
        x = .constraintDelete target.tableName target.name ∧ y = .constraintCreate source) ∧
    (∀ (os ot : Option DatabaseIndex) (x y : SchemaDiff),
      diffIndex os ot = [x, y] → ∃ source target, os = some source ∧ ot = some target ∧
        x = .indexDelete target.name ∧ y = .indexCreate source) := by
  refine ⟨fun source target => rfl, fun source target => rfl, fun source target => rfl,
    ?_, ?_, ?_⟩
  · rintro (_ | ⟨source⟩) (_ | ⟨target⟩) x y h <;>
      simp only [diffColumn, dropAndRecreateColumn] at h
    · cases h
    · cases h
    · cases h
    · refine ⟨source, target, rfl, rfl, ?_⟩
      split at h
      · cases h
        exact ⟨rfl, rfl⟩
      · split at h <;> cases h
  · rintro (_ | ⟨source⟩) (_ | ⟨target⟩) x y h <;>
      simp only [diffConstraint] at h
    · cases h
    · cases h
    · cases h
    · refine ⟨source, target, rfl, rfl, ?_⟩
      rcases hty : source.ctype <;> rw [hty] at h <;>
        simp only [diffPrimaryKeyConstraint, diffForeignKeyConstraint, diffUniqueConstraint,
          diffCheckConstraint, dropAndRecreateConstraint] at h <;>
        split at h <;> cases h <;> exact ⟨rfl, rfl⟩
  · rintro (_ | ⟨source⟩) (_ | ⟨target⟩) x y h <;>
      simp only [diffIndex, dropAndRecreateIndex] at h
    · cases h
    · cases h
    · cases h
    · refine ⟨source, target, rfl, rfl, ?_⟩
      split at h
      · cases h
        exact ⟨rfl, rfl⟩
      · cases h

theorem drop_precedes_create_witness :
    diffColumn (some sampleTextColumn) (some sampleUuidColumn) =
        [.columnDelete "t" "c", .columnCreate sampleTextColumn] ∧
    ∃ source target, some sampleTextColumn = some source ∧
      some sampleUuidColumn = some target ∧
      SchemaDiff.columnDelete "t" "c" =
        SchemaDiff.columnDelete target.tableName target.name ∧
      SchemaDiff.columnCreate sampleTextColumn = SchemaDiff.columnCreate source :=
  ⟨by decide,
    drop_precedes_create.2.2.2.1 (some sampleTextColumn) (some sampleUuidColumn)
      (.columnDelete "t" "c") (.columnCreate sampleTextColumn) (by decide)⟩

theorem diffColumn_primary_false_vs_absent_witness :
    diffColumn (some sampleUuidPrimaryFalseColumn) (some sampleUuidColumn) =
      [.columnUpdate sampleUuidPrimaryFalseColumn sampleUuidColumn] :=
  diffColumn_primary_false_vs_absent sampleUuidPrimaryFalseColumn sampleUuidColumn
    rfl rfl rfl rfl rfl rfl

end SchemaEngine
